import Mathlib

/- Shallow embedding of the BambooSwap settlement engine (src/src/lib.rs).
   Machine integers (u128) are modelled as Nat together with checked
   arithmetic against U128_MAX, exactly as the source uses checked_add and
   checked_sub.  Persistent storage is modelled explicitly: the instance
   slots are an association list from the slot key (the count value whose
   little-endian bytes key the store) to the stored byte vector, and the
   replay-guard flags are the list of marked transaction identifiers.
   Fallible code returns Except.  Top-level operations return, on failure,
   the error together with the state at the point of failure; the host
   guarantees atomic-on-success semantics (spec section 5), so only the
   success states are ever committed (see Reaches below). -/

/-- Maximum value representable in a 128 bit unsigned integer. -/
def U128_MAX : Nat := 2 ^ 128 - 1

/-- Rust u128 checked_add: none exactly when the sum would wrap. -/
def checked_add (a b : Nat) : Option Nat :=
  if a + b ≤ U128_MAX then some (a + b) else none

/-- Rust u128 checked_sub: none exactly when the subtrahend exceeds the minuend. -/
def checked_sub (a b : Nat) : Option Nat :=
  if b ≤ a then some (a - b) else none

/-- The block component of every recognized collectible identifier (lib.rs line 29). -/
def PANDA_BLOCK : Nat := 2

/-- Credit tokens issued per collectible, the fixed exchange rate (lib.rs line 31). -/
def BAMBOO_PER_PANDA : Nat := 10000000000000

/-- Declared collectible supply (lib.rs line 32). -/
def PANDA_SUPPLY : Nat := 10000

/-- Declared supply cap constant (lib.rs line 33). -/
def BAMBOO_CAP : Nat := PANDA_SUPPLY * BAMBOO_PER_PANDA

/-- AlkaneId: a pair of two u128 values identifying an asset (alkanes_support::id). -/
structure AlkaneId where
  block : Nat
  tx : Nat
deriving DecidableEq, Repr

/-- AlkaneTransfer: an asset identifier together with a u128 amount. -/
structure AlkaneTransfer where
  id : AlkaneId
  value : Nat
deriving DecidableEq, Repr

/-- CallResponse: the outgoing transfers and the data bytes of one call. -/
structure CallResponse where
  alkanes : List AlkaneTransfer
  data : List Nat
deriving DecidableEq, Repr

/-- Error taxonomy of the engine, following the spec names for the
    distinct failure sites of the source. -/
inductive SwapErr where
  | ReplayDetected
  | EmptyInput
  | WrongInputShape
  | InvalidAssetId
  | WrongAssetSupplied
  | InsufficientAmount
  | InsufficientInventory
  | ArithmeticOverflow
  | ArithmeticUnderflow
  | Underflow
  | CorruptState
  | NotImplemented
deriving DecidableEq, Repr

/-- The persistent state of the engine: the supply ledger value, the
    registry count, the registry slot store (slot key to stored bytes,
    missing keys read as the empty byte vector, as the key-value host
    does), and the replay-guard set of marked transaction identifiers. -/
structure SwapState where
  total_supply : Nat
  instances_count : Nat
  slots : List (Nat × List Nat)
  tx_hashes : List Nat
deriving DecidableEq, Repr

/-- Write a slot in the registry store. -/
def setSlot (sl : List (Nat × List Nat)) (k : Nat) (v : List Nat) :
    List (Nat × List Nat) :=
  (k, v) :: sl

/-- Read a slot from the registry store; an unset key reads as empty. -/
def getSlot (sl : List (Nat × List Nat)) (k : Nat) : List Nat :=
  match sl.find? (fun p => p.1 == k) with
  | some p => p.2
  | none => []

/-- Little-endian 16 byte encoding of a u128 value, as to_le_bytes. -/
def toLeBytes16 (n : Nat) : List Nat :=
  (List.range 16).map fun i => n / 256 ^ i % 256

/-- Little-endian decoding of a byte vector, as from_le_bytes. -/
def fromLeBytes (bs : List Nat) : Nat :=
  bs.foldr (fun b acc => b + 256 * acc) 0

/-- The 32 byte record stored for one collectible: 16 little-endian bytes
    of the block value followed by 16 little-endian bytes of the tx value
    (lib.rs lines 370 to 372). -/
def encodeId (id : AlkaneId) : List Nat :=
  toLeBytes16 id.block ++ toLeBytes16 id.tx

/-- has_tx_hash (lib.rs lines 426 to 431): is the transaction marked. -/
def has_tx_hash (s : SwapState) (txid : Nat) : Bool :=
  s.tx_hashes.contains txid

/-- add_tx_hash (lib.rs lines 433 to 439): mark the transaction. -/
def add_tx_hash (s : SwapState) (txid : Nat) : SwapState :=
  { s with tx_hashes := txid :: s.tx_hashes }

/-- increase_total_supply (lib.rs lines 189 to 192): checked add into the
    ledger; on failure no state is produced, so the ledger is unchanged. -/
def increase_total_supply (s : SwapState) (v : Nat) : Except SwapErr SwapState :=
  match checked_add s.total_supply v with
  | some n => .ok { s with total_supply := n }
  | none => .error .ArithmeticOverflow

/-- decrease_total_supply (lib.rs lines 194 to 197): checked subtract. -/
def decrease_total_supply (s : SwapState) (v : Nat) : Except SwapErr SwapState :=
  match checked_sub s.total_supply v with
  | some n => .ok { s with total_supply := n }
  | none => .error .ArithmeticUnderflow

/-- is_valid_panda (lib.rs lines 199 to 201): membership predicate, with
    the compiled-in allow-list PANDA_IDS passed as the pandaIds parameter. -/
def is_valid_panda (pandaIds : List Nat) (id : AlkaneId) : Bool :=
  id.block == PANDA_BLOCK && pandaIds.contains id.tx

/-- add_instance (lib.rs lines 365 to 381): append the encoded identifier
    at slot count + 1 and increment the count. -/
def add_instance (s : SwapState) (instance_id : AlkaneId) :
    Except SwapErr (SwapState × Nat) :=
  match checked_add s.instances_count 1 with
  | none => .error .ArithmeticOverflow
  | some new_count =>
    .ok ({ s with
            slots := setSlot s.slots new_count (encodeId instance_id),
            instances_count := new_count }, new_count)

/-- lookup_instance (lib.rs lines 401 to 417): read 1-based slot index + 1
    and decode it; fail CorruptState unless exactly 32 bytes are stored. -/
def lookup_instance (s : SwapState) (index : Nat) : Except SwapErr AlkaneId :=
  let bytes := getSlot s.slots (index + 1)
  if bytes.length = 32 then
    .ok ⟨fromLeBytes (bytes.take 16), fromLeBytes (bytes.drop 16)⟩
  else
    .error .CorruptState

/-- pop_instance (lib.rs lines 383 to 399): read slot count, tombstone it
    with the empty vector, decrement the count. -/
def pop_instance (s : SwapState) : Except SwapErr (SwapState × AlkaneId) :=
  match checked_sub s.instances_count 1 with
  | none => .error .Underflow
  | some new_count =>
    match lookup_instance s (s.instances_count - 1) with
    | .error e => .error e
    | .ok instance_id =>
      .ok ({ s with
              slots := setSlot s.slots s.instances_count [],
              instances_count := new_count }, instance_id)

/-- The loop body of panda_to_bamboo (lib.rs lines 221 to 230): validate
    each incoming transfer, append it to the registry, and accumulate the
    credited amount with overflow checking.  An error carries the state
    reached at the point of failure.  The per-collectible credit is the
    rate parameter; the caller always passes BAMBOO_PER_PANDA. -/
def forwardLoop (pandaIds : List Nat) (rate : Nat) (s : SwapState)
    (ts : List AlkaneTransfer) (total : Nat) :
    Except (SwapErr × SwapState) (SwapState × Nat) :=
  match ts with
  | [] => .ok (s, total)
  | t :: rest =>
    if is_valid_panda pandaIds t.id then
      match add_instance s t.id with
      | .error e => .error (e, s)
      | .ok (s1, _) =>
        match checked_add total rate with
        | none => .error (.ArithmeticOverflow, s1)
        | some total1 => forwardLoop pandaIds rate s1 rest total1
    else
      .error (.InvalidAssetId, s)

/-- panda_to_bamboo, the ForwardSwap (lib.rs lines 203 to 240). -/
def panda_to_bamboo (pandaIds : List Nat) (myself : AlkaneId) (txid : Nat)
    (incoming : List AlkaneTransfer) (s : SwapState) :
    Except (SwapErr × SwapState) (SwapState × CallResponse) :=
  if has_tx_hash s txid then
    .error (.ReplayDetected, s)
  else if incoming.isEmpty then
    .error (.EmptyInput, s)
  else
    match forwardLoop pandaIds BAMBOO_PER_PANDA (add_tx_hash s txid) incoming 0 with
    | .error es => .error es
    | .ok (s2, total_bamboo) =>
      match increase_total_supply s2 total_bamboo with
      | .error e => .error (e, s2)
      | .ok s3 => .ok (s3, ⟨[⟨myself, total_bamboo⟩], []⟩)

/-- The redemption loop of bamboo_to_panda (lib.rs lines 282 to 287):
    pop panda_count collectibles, emitting each with amount 1. -/
def popLoop (s : SwapState) (n : Nat) (acc : List AlkaneTransfer) :
    Except (SwapErr × SwapState) (SwapState × List AlkaneTransfer) :=
  match n with
  | 0 => .ok (s, acc)
  | Nat.succ m =>
    match pop_instance s with
    | .error e => .error (e, s)
    | .ok (s1, instance_id) => popLoop s1 m (acc ++ [⟨instance_id, 1⟩])

/-- bamboo_to_panda, the ReverseSwap (lib.rs lines 242 to 298).  The source
    locals panda_count, bamboo_used, bamboo_change and s1 are inlined as
    the corresponding quotient, product, remainder and add_tx_hash
    expressions. -/
def bamboo_to_panda (myself : AlkaneId) (txid : Nat)
    (incoming : List AlkaneTransfer) (s : SwapState) :
    Except (SwapErr × SwapState) (SwapState × CallResponse) :=
  if has_tx_hash s txid then
    .error (.ReplayDetected, s)
  else
    match incoming with
    | [transfer] =>
      if transfer.id = myself then
        if transfer.value < BAMBOO_PER_PANDA then
          .error (.InsufficientAmount, s)
        else
          if s.instances_count < transfer.value / BAMBOO_PER_PANDA then
            .error (.InsufficientInventory, s)
          else
            match decrease_total_supply (add_tx_hash s txid)
              (transfer.value / BAMBOO_PER_PANDA * BAMBOO_PER_PANDA) with
            | .error e => .error (e, add_tx_hash s txid)
            | .ok s2 =>
              match popLoop s2 (transfer.value / BAMBOO_PER_PANDA) [] with
              | .error es => .error es
              | .ok (s3, pandas) =>
                if transfer.value % BAMBOO_PER_PANDA > 0 then
                  .ok (s3, ⟨pandas ++ [⟨myself, transfer.value % BAMBOO_PER_PANDA⟩], []⟩)
                else
                  .ok (s3, ⟨pandas, []⟩)
      else
        .error (.WrongAssetSupplied, s)
    | _ => .error (.WrongInputShape, s)

/-- mint_tokens (lib.rs lines 300 to 302): always fails, touching nothing. -/
def mint_tokens (s : SwapState) :
    Except (SwapErr × SwapState) (SwapState × CallResponse) :=
  .error (.NotImplemented, s)

/-- The record-collecting loop of get_panda_stack (lib.rs lines 320 to
    326): look up each instance from index i for n steps and re-encode it. -/
def stackRecords (s : SwapState) : Nat → Nat → Except SwapErr (List (List Nat))
  | _, 0 => .ok []
  | i, Nat.succ n =>
    match lookup_instance s i with
    | .error e => .error e
    | .ok instance_id =>
      match stackRecords s (i + 1) n with
      | .error e => .error e
      | .ok rest => .ok (encodeId instance_id :: rest)

/-- get_panda_stack (lib.rs lines 313 to 335): the concatenated records of
    all held collectibles, with the incoming transfers forwarded. -/
def get_panda_stack (incoming : List AlkaneTransfer) (s : SwapState) :
    Except SwapErr CallResponse :=
  match stackRecords s 0 s.instances_count with
  | .error e => .error e
  | .ok records => .ok ⟨incoming, records.foldr (fun r acc => r ++ acc) []⟩

/-- The state at first use: every storage value reads as zero or empty. -/
def initState : SwapState :=
  ⟨0, 0, [], []⟩

/-- A settlement operation together with its incoming parcel. -/
inductive SwapOp where
  | forwardOp (incoming : List AlkaneTransfer)
  | reverseOp (incoming : List AlkaneTransfer)
deriving DecidableEq, Repr

/-- Dispatch a settlement operation. -/
def runSwap (pandaIds : List Nat) (myself : AlkaneId) (op : SwapOp)
    (txid : Nat) (s : SwapState) :
    Except (SwapErr × SwapState) (SwapState × CallResponse) :=
  match op with
  | .forwardOp incoming => panda_to_bamboo pandaIds myself txid incoming s
  | .reverseOp incoming => bamboo_to_panda myself txid incoming s

/-- Committed reachability: the states the persistent store can hold,
    starting from a given state and applying successful settlements only;
    failed calls commit nothing (spec section 5, atomic-on-success). -/
inductive Reaches (pandaIds : List Nat) (myself : AlkaneId)
    (s : SwapState) : SwapState → Prop
  | refl : Reaches pandaIds myself s s
  | forwardStep (t u : SwapState) (txid : Nat)
      (incoming : List AlkaneTransfer) (r : CallResponse) :
      Reaches pandaIds myself s t →
      panda_to_bamboo pandaIds myself txid incoming t = .ok (u, r) →
      Reaches pandaIds myself s u
  | reverseStep (t u : SwapState) (txid : Nat)
      (incoming : List AlkaneTransfer) (r : CallResponse) :
      Reaches pandaIds myself s t →
      bamboo_to_panda myself txid incoming t = .ok (u, r) →
      Reaches pandaIds myself s u

/- Helper lemmas about the slot store and the byte encoding. -/

lemma getSlot_set_same (sl : List (Nat × List Nat)) (k : Nat) (v : List Nat) :
    getSlot (setSlot sl k v) k = v := by
  simp [getSlot, setSlot, List.find?]

lemma getSlot_set_ne (sl : List (Nat × List Nat)) (k k1 : Nat) (v : List Nat)
    (h : k1 ≠ k) : getSlot (setSlot sl k v) k1 = getSlot sl k1 := by
  simp only [getSlot, setSlot, List.find?]
  have : (k == k1) = false := by
    simp [h.symm]
  rw [this]

lemma fromLeBytes_cons (b : Nat) (bs : List Nat) :
    fromLeBytes (b :: bs) = b + 256 * fromLeBytes bs := rfl

lemma fromLe_range (k : Nat) : ∀ n : Nat, n < 256 ^ k →
    fromLeBytes ((List.range k).map fun i => n / 256 ^ i % 256) = n := by
  induction k with
  | zero =>
    intro n hn
    simp only [pow_zero, Nat.lt_one_iff] at hn
    simp [fromLeBytes, hn]
  | succ k ih =>
    intro n hn
    rw [List.range_succ_eq_map]
    simp only [List.map_cons, List.map_map]
    rw [fromLeBytes_cons]
    have hfun : ((fun i => n / 256 ^ i % 256) ∘ Nat.succ)
        = fun i => n / 256 / 256 ^ i % 256 := by
      funext i
      simp only [Function.comp]
      rw [pow_succ']
      rw [Nat.div_div_eq_div_mul]
    rw [hfun]
    have hlt : n / 256 < 256 ^ k := by
      rw [Nat.div_lt_iff_lt_mul (by norm_num : 0 < 256)]
      rw [pow_succ] at hn
      exact hn
    rw [ih (n / 256) hlt]
    simp only [pow_zero, Nat.div_one]
    exact Nat.mod_add_div n 256

lemma fromLe_toLeBytes16 (n : Nat) (h : n < 2 ^ 128) :
    fromLeBytes (toLeBytes16 n) = n := by
  have h256 : (256 : Nat) ^ 16 = 2 ^ 128 := by norm_num
  exact fromLe_range 16 n (by rw [h256]; exact h)

lemma toLeBytes16_length (n : Nat) : (toLeBytes16 n).length = 16 := by
  simp [toLeBytes16]

lemma encodeId_length (id : AlkaneId) : (encodeId id).length = 32 := by
  simp [encodeId, toLeBytes16_length]

lemma encodeId_take (id : AlkaneId) :
    (encodeId id).take 16 = toLeBytes16 id.block := by
  rw [encodeId, show (16 : Nat) = (toLeBytes16 id.block).length
    from (toLeBytes16_length _).symm]
  exact List.take_left _ _

lemma encodeId_drop (id : AlkaneId) :
    (encodeId id).drop 16 = toLeBytes16 id.tx := by
  rw [encodeId, show (16 : Nat) = (toLeBytes16 id.block).length
    from (toLeBytes16_length _).symm]
  exact List.drop_left _ _

lemma lookup_instance_of_slot (s : SwapState) (i : Nat) (id : AlkaneId)
    (hb : id.block < 2 ^ 128) (ht : id.tx < 2 ^ 128)
    (hs : getSlot s.slots (i + 1) = encodeId id) :
    lookup_instance s i = .ok id := by
  unfold lookup_instance
  rw [hs, if_pos (encodeId_length id)]
  rw [encodeId_take, encodeId_drop, fromLe_toLeBytes16 _ hb,
    fromLe_toLeBytes16 _ ht]

lemma checked_add_eq_some (a b : Nat) (h : a + b ≤ U128_MAX) :
    checked_add a b = some (a + b) := by
  simp [checked_add, h]

lemma checked_sub_eq_some (a b : Nat) (h : b ≤ a) :
    checked_sub a b = some (a - b) := by
  simp [checked_sub, h]

lemma checked_add_some_inv {a b c : Nat} (h : checked_add a b = some c) :
    c = a + b ∧ a + b ≤ U128_MAX := by
  by_cases hle : a + b ≤ U128_MAX
  · simp [checked_add, hle] at h
    exact ⟨h.symm, hle⟩
  · simp [checked_add, hle] at h

lemma checked_sub_some_inv {a b c : Nat} (h : checked_sub a b = some c) :
    c = a - b ∧ b ≤ a := by
  by_cases hle : b ≤ a
  · simp [checked_sub, hle] at h
    exact ⟨h.symm, hle⟩
  · simp [checked_sub, hle] at h

lemma forwardLoop_nil (pandaIds : List Nat) (rate : Nat) (s : SwapState)
    (total : Nat) :
    forwardLoop pandaIds rate s [] total = .ok (s, total) := rfl

lemma forwardLoop_cons (pandaIds : List Nat) (rate : Nat) (s : SwapState)
    (t : AlkaneTransfer) (rest : List AlkaneTransfer) (total : Nat) :
    forwardLoop pandaIds rate s (t :: rest) total =
      (if is_valid_panda pandaIds t.id then
        match add_instance s t.id with
        | .error e => .error (e, s)
        | .ok (s1, _) =>
          match checked_add total rate with
          | none => .error (.ArithmeticOverflow, s1)
          | some total1 => forwardLoop pandaIds rate s1 rest total1
      else .error (.InvalidAssetId, s)) := rfl

lemma add_instance_ok (s : SwapState) (instance_id : AlkaneId)
    (h : s.instances_count + 1 ≤ U128_MAX) :
    add_instance s instance_id =
      .ok ({ s with
              slots := setSlot s.slots (s.instances_count + 1)
                (encodeId instance_id),
              instances_count := s.instances_count + 1 },
            s.instances_count + 1) := by
  simp only [add_instance, checked_add_eq_some _ _ h]

lemma add_instance_ok_inv {s : SwapState} {instance_id : AlkaneId}
    {s1 : SwapState} {nc : Nat}
    (h : add_instance s instance_id = .ok (s1, nc)) :
    nc = s.instances_count + 1 ∧
    s1.instances_count = s.instances_count + 1 ∧
    s1.total_supply = s.total_supply ∧
    s1.tx_hashes = s.tx_hashes ∧
    s1.slots = setSlot s.slots (s.instances_count + 1) (encodeId instance_id) ∧
    s.instances_count + 1 ≤ U128_MAX := by
  unfold add_instance at h
  rcases hca : checked_add s.instances_count 1 with _ | m
  · rw [hca] at h
    exact Except.noConfusion h
  · rw [hca] at h
    obtain ⟨hm, hle⟩ := checked_add_some_inv hca
    subst hm
    injection h with h1
    injection h1 with ha hb
    subst ha
    exact ⟨hb.symm, rfl, rfl, rfl, rfl, hle⟩

lemma forwardLoop_ok (pandaIds : List Nat) (rate : Nat) :
    ∀ (ts : List AlkaneTransfer) (s : SwapState) (total : Nat),
    (∀ t ∈ ts, is_valid_panda pandaIds t.id = true) →
    s.instances_count + ts.length ≤ U128_MAX →
    total + ts.length * rate ≤ U128_MAX →
    ∃ s2 : SwapState,
      forwardLoop pandaIds rate s ts total
        = .ok (s2, total + ts.length * rate) ∧
      s2.total_supply = s.total_supply ∧
      s2.tx_hashes = s.tx_hashes ∧
      s2.instances_count = s.instances_count + ts.length ∧
      (∀ j : Nat, (∀ i : Nat, i < ts.length → j ≠ s.instances_count + i + 1) →
        getSlot s2.slots j = getSlot s.slots j) ∧
      (∀ i : Nat, (h : i < ts.length) →
        getSlot s2.slots (s.instances_count + i + 1)
          = encodeId (ts.get ⟨i, h⟩).id) := by
  intro ts
  induction ts with
  | nil =>
    intro s total _ _ _
    refine ⟨s, ?_, rfl, rfl, by simp, fun j _ => rfl, ?_⟩
    · rw [forwardLoop_nil]
      simp
    · intro i h
      exact absurd h (by simp)
  | cons t rest ih =>
    intro s total hvalid hcnt htot
    simp only [List.length_cons] at hcnt htot
    have hc1 : s.instances_count + 1 ≤ U128_MAX := by omega
    have ht1 : total + rate ≤ U128_MAX := by
      simp only [add_mul, one_mul] at htot
      omega
    set s1 : SwapState :=
      { s with
        slots := setSlot s.slots (s.instances_count + 1) (encodeId t.id),
        instances_count := s.instances_count + 1 } with hs1def
    have hs1c : s1.instances_count = s.instances_count + 1 := rfl
    have hs1sup : s1.total_supply = s.total_supply := rfl
    have hs1tx : s1.tx_hashes = s.tx_hashes := rfl
    have hs1slots : s1.slots
        = setSlot s.slots (s.instances_count + 1) (encodeId t.id) := rfl
    have hstep : forwardLoop pandaIds rate s (t :: rest) total
        = forwardLoop pandaIds rate s1 rest (total + rate) := by
      rw [forwardLoop_cons, if_pos (hvalid t (List.mem_cons_self t rest)),
        add_instance_ok s t.id hc1, checked_add_eq_some total rate ht1]
    obtain ⟨s2, hloop, hsup, htx, hcnt2, hpres, hidx⟩ :=
      ih s1 (total + rate)
        (fun x hx => hvalid x (List.mem_cons_of_mem t hx))
        (by rw [hs1c]; omega)
        (by simp only [add_mul, one_mul] at htot ⊢; omega)
    refine ⟨s2, ?_, ?_, ?_, ?_, ?_, ?_⟩
    · rw [hstep, hloop]
      have harith : total + rate + rest.length * rate
          = total + (t :: rest).length * rate := by
        rw [List.length_cons]
        ring
      rw [harith]
    · rw [hsup, hs1sup]
    · rw [htx, hs1tx]
    · rw [hcnt2, hs1c, List.length_cons]
      omega
    · intro j hj
      have hj1 : ∀ i : Nat, i < rest.length → j ≠ s1.instances_count + i + 1 := by
        intro i hi
        rw [hs1c]
        have := hj (i + 1) (by rw [List.length_cons]; omega)
        omega
      rw [hpres j hj1, hs1slots]
      refine getSlot_set_ne _ _ _ _ ?_
      have := hj 0 (by rw [List.length_cons]; omega)
      omega
    · intro i h
      cases i with
      | zero =>
        have hne : ∀ i2 : Nat, i2 < rest.length →
            s.instances_count + 0 + 1 ≠ s1.instances_count + i2 + 1 := by
          intro i2 _
          rw [hs1c]
          omega
        rw [hpres _ hne, hs1slots,
          show s.instances_count + 0 + 1 = s.instances_count + 1 by omega,
          getSlot_set_same]
        rfl
      | succ i1 =>
        have h1 : i1 < rest.length := by
          rw [List.length_cons] at h
          omega
        have hx := hidx i1 h1
        rw [hs1c] at hx
        rw [show s.instances_count + (i1 + 1) + 1
          = s.instances_count + 1 + i1 + 1 by omega]
        exact hx

lemma forwardLoop_ok_inv (pandaIds : List Nat) (rate : Nat) :
    ∀ (ts : List AlkaneTransfer) (s : SwapState) (total : Nat)
      (s2 : SwapState) (total2 : Nat),
    forwardLoop pandaIds rate s ts total = .ok (s2, total2) →
    total2 = total + ts.length * rate ∧
    s2.instances_count = s.instances_count + ts.length ∧
    s2.total_supply = s.total_supply ∧
    s2.tx_hashes = s.tx_hashes := by
  intro ts
  induction ts with
  | nil =>
    intro s total s2 total2 h
    rw [forwardLoop_nil] at h
    injection h with h1
    injection h1 with ha hb
    subst ha
    subst hb
    simp
  | cons t rest ih =>
    intro s total s2 total2 h
    rw [forwardLoop_cons] at h
    split at h
    · rcases hai : add_instance s t.id with e | p
      · rw [hai] at h
        exact Except.noConfusion h
      · rw [hai] at h
        obtain ⟨s1, nc⟩ := p
        obtain ⟨hnc, hc1, hc2, hc3, _, _⟩ := add_instance_ok_inv hai
        rcases hct : checked_add total rate with _ | nt
        · rw [hct] at h
          exact Except.noConfusion h
        · rw [hct] at h
          obtain ⟨hnt, _⟩ := checked_add_some_inv hct
          obtain ⟨e1, e2, e3, e4⟩ := ih s1 nt s2 total2 h
          refine ⟨?_, ?_, ?_, ?_⟩
          · rw [e1, hnt, List.length_cons]
            ring
          · rw [e2, hc1, List.length_cons]
            omega
          · rw [e3, hc2]
          · rw [e4, hc3]
    · exact Except.noConfusion h

lemma popLoop_zero (s : SwapState) (acc : List AlkaneTransfer) :
    popLoop s 0 acc = .ok (s, acc) := rfl

lemma popLoop_succ (s : SwapState) (m : Nat) (acc : List AlkaneTransfer) :
    popLoop s (m + 1) acc =
      (match pop_instance s with
      | .error e => .error (e, s)
      | .ok (s1, instance_id) => popLoop s1 m (acc ++ [⟨instance_id, 1⟩])) := rfl

lemma pop_instance_ok (s : SwapState) (instance_id : AlkaneId)
    (hcnt : 1 ≤ s.instances_count)
    (hb : instance_id.block < 2 ^ 128) (ht : instance_id.tx < 2 ^ 128)
    (hslot : getSlot s.slots s.instances_count = encodeId instance_id) :
    pop_instance s = .ok ({ s with
        slots := setSlot s.slots s.instances_count [],
        instances_count := s.instances_count - 1 }, instance_id) := by
  unfold pop_instance
  rw [checked_sub_eq_some _ _ hcnt]
  have hlk : lookup_instance s (s.instances_count - 1) = .ok instance_id := by
    apply lookup_instance_of_slot _ _ _ hb ht
    rw [show s.instances_count - 1 + 1 = s.instances_count by omega]
    exact hslot
  rw [hlk]

lemma pop_instance_ok_inv {s s1 : SwapState} {instance_id : AlkaneId}
    (h : pop_instance s = .ok (s1, instance_id)) :
    1 ≤ s.instances_count ∧
    s1.instances_count = s.instances_count - 1 ∧
    s1.total_supply = s.total_supply ∧
    s1.tx_hashes = s.tx_hashes ∧
    s1.slots = setSlot s.slots s.instances_count [] := by
  unfold pop_instance at h
  rcases hcs : checked_sub s.instances_count 1 with _ | m
  · rw [hcs] at h
    exact Except.noConfusion h
  · rw [hcs] at h
    obtain ⟨hm, hle⟩ := checked_sub_some_inv hcs
    rcases hli : lookup_instance s (s.instances_count - 1) with e | iid
    · rw [hli] at h
      exact Except.noConfusion h
    · rw [hli] at h
      injection h with h1
      injection h1 with ha hb
      subst ha
      exact ⟨hle, by rw [hm], rfl, rfl, rfl⟩

lemma popLoop_ok :
    ∀ (n : Nat) (s : SwapState) (acc : List AlkaneTransfer) (g : Nat → AlkaneId),
    n ≤ s.instances_count →
    (∀ i, i < n → getSlot s.slots (s.instances_count - i) = encodeId (g i)) →
    (∀ i, i < n → (g i).block < 2 ^ 128 ∧ (g i).tx < 2 ^ 128) →
    ∃ s2 : SwapState,
      popLoop s n acc
        = .ok (s2, acc ++ (List.range n).map (fun i => ⟨g i, 1⟩)) ∧
      s2.instances_count = s.instances_count - n ∧
      s2.total_supply = s.total_supply ∧
      s2.tx_hashes = s.tx_hashes ∧
      (∀ j, j ≤ s.instances_count - n →
        getSlot s2.slots j = getSlot s.slots j) := by
  intro n
  induction n with
  | zero =>
    intro s acc g _ _ _
    refine ⟨s, ?_, by omega, rfl, rfl, fun j _ => rfl⟩
    rw [popLoop_zero]
    simp
  | succ m ih =>
    intro s acc g hcnt hslots hbnd
    have h1le : 1 ≤ s.instances_count := by omega
    have hpop := pop_instance_ok s (g 0) h1le
      (hbnd 0 (by omega)).1 (hbnd 0 (by omega)).2
      (by
        have := hslots 0 (by omega)
        rw [Nat.sub_zero] at this
        exact this)
    set s1 : SwapState :=
      { s with
        slots := setSlot s.slots s.instances_count [],
        instances_count := s.instances_count - 1 } with hs1def
    have hs1c : s1.instances_count = s.instances_count - 1 := rfl
    have hs1sup : s1.total_supply = s.total_supply := rfl
    have hs1tx : s1.tx_hashes = s.tx_hashes := rfl
    have hs1slots : s1.slots = setSlot s.slots s.instances_count [] := rfl
    have hstep : popLoop s (m + 1) acc
        = popLoop s1 m (acc ++ [⟨g 0, 1⟩]) := by
      rw [popLoop_succ, hpop]
    have hpres1 : ∀ j, j ≤ s.instances_count - 1 →
        getSlot s1.slots j = getSlot s.slots j := by
      intro j hj
      rw [hs1slots]
      exact getSlot_set_ne _ _ _ _ (by omega)
    obtain ⟨s2, hloop, hcnt2, hsup2, htx2, hpres2⟩ :=
      ih s1 (acc ++ [⟨g 0, 1⟩]) (fun i => g (i + 1))
        (by rw [hs1c]; omega)
        (by
          intro i hi
          rw [hs1c, hpres1 _ (by omega),
            show s.instances_count - 1 - i = s.instances_count - (i + 1) by omega]
          exact hslots (i + 1) (by omega))
        (fun i hi => hbnd (i + 1) (by omega))
    refine ⟨s2, ?_, by rw [hcnt2, hs1c]; omega, by rw [hsup2, hs1sup],
      by rw [htx2, hs1tx], ?_⟩
    · rw [hstep, hloop]
      have hlist : (acc ++ [(⟨g 0, 1⟩ : AlkaneTransfer)])
            ++ (List.range m).map (fun i => (⟨g (i + 1), 1⟩ : AlkaneTransfer))
          = acc ++ (List.range (m + 1)).map (fun i => (⟨g i, 1⟩ : AlkaneTransfer)) := by
        rw [List.range_succ_eq_map, List.map_cons, List.map_map]
        simp [Function.comp, List.append_assoc]
      rw [hlist]
    · intro j hj
      rw [hpres2 j (by rw [hs1c]; omega)]
      exact hpres1 j (by omega)

lemma popLoop_ok_inv :
    ∀ (n : Nat) (s : SwapState) (acc : List AlkaneTransfer)
      (s2 : SwapState) (out : List AlkaneTransfer),
    popLoop s n acc = .ok (s2, out) →
    n ≤ s.instances_count ∧
    s2.instances_count = s.instances_count - n ∧
    s2.total_supply = s.total_supply ∧
    s2.tx_hashes = s.tx_hashes ∧
    ∃ ps : List AlkaneTransfer,
      out = acc ++ ps ∧ ps.length = n ∧ ∀ x ∈ ps, x.value = 1 := by
  intro n
  induction n with
  | zero =>
    intro s acc s2 out h
    rw [popLoop_zero] at h
    injection h with h1
    injection h1 with ha hb
    subst ha
    subst hb
    exact ⟨by omega, by omega, rfl, rfl, [], by simp, rfl, by simp⟩
  | succ m ih =>
    intro s acc s2 out h
    rw [popLoop_succ] at h
    rcases hpi : pop_instance s with e | p
    · rw [hpi] at h
      exact Except.noConfusion h
    · rw [hpi] at h
      obtain ⟨s1, iid⟩ := p
      obtain ⟨hle, hc1, hc2, hc3, _⟩ := pop_instance_ok_inv hpi
      obtain ⟨hn, hcnt2, hsup2, htx2, ps1, hout, hlen, hvals⟩ :=
        ih s1 (acc ++ [⟨iid, 1⟩]) s2 out h
      refine ⟨by omega, by rw [hcnt2, hc1]; omega, by rw [hsup2, hc2],
        by rw [htx2, hc3], ⟨iid, 1⟩ :: ps1, ?_, by simp [hlen], ?_⟩
      · rw [hout]
        simp
      · intro x hx
        rcases List.mem_cons.mp hx with h1 | h2
        · rw [h1]
        · exact hvals x h2

lemma increase_total_supply_ok (s : SwapState) (v : Nat)
    (h : s.total_supply + v ≤ U128_MAX) :
    increase_total_supply s v
      = .ok { s with total_supply := s.total_supply + v } := by
  simp only [increase_total_supply, checked_add_eq_some _ _ h]

lemma increase_total_supply_err (s : SwapState) (v : Nat)
    (h : U128_MAX < s.total_supply + v) :
    increase_total_supply s v = .error .ArithmeticOverflow := by
  have hc : checked_add s.total_supply v = none := by
    simp only [checked_add, if_neg (by omega : ¬ s.total_supply + v ≤ U128_MAX)]
  simp only [increase_total_supply, hc]

lemma increase_total_supply_ok_inv {s s1 : SwapState} {v : Nat}
    (h : increase_total_supply s v = .ok s1) :
    s1.total_supply = s.total_supply + v ∧
    s.total_supply + v ≤ U128_MAX ∧
    s1.instances_count = s.instances_count ∧
    s1.tx_hashes = s.tx_hashes ∧
    s1.slots = s.slots := by
  unfold increase_total_supply at h
  rcases hca : checked_add s.total_supply v with _ | m
  · rw [hca] at h
    exact Except.noConfusion h
  · rw [hca] at h
    obtain ⟨hm, hle⟩ := checked_add_some_inv hca
    injection h with h1
    subst h1
    exact ⟨hm ▸ rfl, hle, rfl, rfl, rfl⟩

lemma decrease_total_supply_ok (s : SwapState) (v : Nat)
    (h : v ≤ s.total_supply) :
    decrease_total_supply s v
      = .ok { s with total_supply := s.total_supply - v } := by
  simp only [decrease_total_supply, checked_sub_eq_some _ _ h]

lemma decrease_total_supply_ok_inv {s s1 : SwapState} {v : Nat}
    (h : decrease_total_supply s v = .ok s1) :
    s1.total_supply = s.total_supply - v ∧
    v ≤ s.total_supply ∧
    s1.instances_count = s.instances_count ∧
    s1.tx_hashes = s.tx_hashes ∧
    s1.slots = s.slots := by
  unfold decrease_total_supply at h
  rcases hcs : checked_sub s.total_supply v with _ | m
  · rw [hcs] at h
    exact Except.noConfusion h
  · rw [hcs] at h
    obtain ⟨hm, hle⟩ := checked_sub_some_inv hcs
    injection h with h1
    subst h1
    exact ⟨hm ▸ rfl, hle, rfl, rfl, rfl⟩

lemma pop_instance_empty (s : SwapState) (h : s.instances_count = 0) :
    pop_instance s = .error .Underflow := by
  unfold pop_instance
  have hc : checked_sub s.instances_count 1 = none := by
    simp only [checked_sub, h, if_neg (by omega : ¬ (1 : Nat) ≤ 0)]
  rw [hc]

lemma panda_to_bamboo_ok (pandaIds : List Nat) (myself : AlkaneId)
    (txid : Nat) (incoming : List AlkaneTransfer) (s : SwapState)
    (hrep : has_tx_hash s txid = false)
    (hne : incoming ≠ [])
    (hvalid : ∀ t ∈ incoming, is_valid_panda pandaIds t.id = true)
    (hcnt : s.instances_count + incoming.length ≤ U128_MAX)
    (hsup : s.total_supply + incoming.length * BAMBOO_PER_PANDA ≤ U128_MAX) :
    ∃ s3 : SwapState,
      panda_to_bamboo pandaIds myself txid incoming s
        = .ok (s3, ⟨[⟨myself, incoming.length * BAMBOO_PER_PANDA⟩], []⟩) ∧
      s3.total_supply = s.total_supply + incoming.length * BAMBOO_PER_PANDA ∧
      s3.instances_count = s.instances_count + incoming.length ∧
      s3.tx_hashes = txid :: s.tx_hashes ∧
      (∀ j : Nat, (∀ i : Nat, i < incoming.length →
          j ≠ s.instances_count + i + 1) →
        getSlot s3.slots j = getSlot s.slots j) ∧
      (∀ i : Nat, (h : i < incoming.length) →
        getSlot s3.slots (s.instances_count + i + 1)
          = encodeId (incoming.get ⟨i, h⟩).id) := by
  have hrep2 : ¬ has_tx_hash s txid = true := by
    rw [hrep]
    exact Bool.false_ne_true
  have hns : ¬ incoming.isEmpty = true := by
    cases incoming with
    | nil => exact absurd rfl hne
    | cons a l => exact Bool.false_ne_true
  obtain ⟨s2, hloop, hsup2, htx2, hcnt2, hpres2, hidx2⟩ :=
    forwardLoop_ok pandaIds BAMBOO_PER_PANDA incoming (add_tx_hash s txid) 0
      hvalid hcnt (by omega)
  rw [Nat.zero_add] at hloop
  have hinc : increase_total_supply s2 (incoming.length * BAMBOO_PER_PANDA)
      = .ok { s2 with total_supply
          := s2.total_supply + incoming.length * BAMBOO_PER_PANDA } := by
    apply increase_total_supply_ok
    rw [hsup2]
    exact hsup
  refine ⟨{ s2 with total_supply
      := s2.total_supply + incoming.length * BAMBOO_PER_PANDA }, ?_, ?_, ?_, ?_, ?_, ?_⟩
  · unfold panda_to_bamboo
    rw [if_neg hrep2, if_neg hns]
    simp only [hloop, hinc]
  · rw [hsup2]
    rfl
  · rw [hcnt2]
    rfl
  · rw [htx2]
    rfl
  · exact hpres2
  · exact hidx2

lemma panda_to_bamboo_ok_inv {pandaIds : List Nat} {myself : AlkaneId}
    {txid : Nat} {incoming : List AlkaneTransfer} {s s3 : SwapState}
    {r : CallResponse}
    (h : panda_to_bamboo pandaIds myself txid incoming s = .ok (s3, r)) :
    has_tx_hash s txid = false ∧
    s3.total_supply = s.total_supply + incoming.length * BAMBOO_PER_PANDA ∧
    s3.instances_count = s.instances_count + incoming.length ∧
    s3.tx_hashes = txid :: s.tx_hashes := by
  unfold panda_to_bamboo at h
  cases hhb : has_tx_hash s txid with
  | true =>
    rw [if_pos hhb] at h
    exact Except.noConfusion h
  | false =>
    rw [if_neg (by rw [hhb]; exact Bool.false_ne_true)] at h
    by_cases hemp : incoming.isEmpty = true
    · rw [if_pos hemp] at h
      exact Except.noConfusion h
    · rw [if_neg hemp] at h
      rcases hfl : forwardLoop pandaIds BAMBOO_PER_PANDA
          (add_tx_hash s txid) incoming 0 with es | p
      · rw [hfl] at h
        exact Except.noConfusion h
      · simp only [hfl] at h
        obtain ⟨s2, total⟩ := p
        obtain ⟨ht, hcnt, hsup, htx⟩ :=
          forwardLoop_ok_inv pandaIds BAMBOO_PER_PANDA incoming _ 0 s2 total hfl
        rcases hinc : increase_total_supply s2 total with e | s4
        · simp only [hinc] at h
          exact Except.noConfusion h
        · simp only [hinc] at h
          obtain ⟨hi1, hi2, hi3, hi4, hi5⟩ := increase_total_supply_ok_inv hinc
          injection h with h1
          injection h1 with ha hb
          subst ha
          have hbase1 : (add_tx_hash s txid).total_supply = s.total_supply := rfl
          have hbase2 : (add_tx_hash s txid).instances_count
              = s.instances_count := rfl
          have hbase3 : (add_tx_hash s txid).tx_hashes = txid :: s.tx_hashes := rfl
          refine ⟨rfl, ?_, ?_, ?_⟩
          · rw [hi1, hsup, hbase1, ht]
            omega
          · rw [hi3, hcnt, hbase2]
          · rw [hi4, htx, hbase3]

lemma panda_to_bamboo_replay (pandaIds : List Nat) (myself : AlkaneId)
    (txid : Nat) (incoming : List AlkaneTransfer) (s : SwapState)
    (h : has_tx_hash s txid = true) :
    panda_to_bamboo pandaIds myself txid incoming s
      = .error (.ReplayDetected, s) := by
  unfold panda_to_bamboo
  rw [if_pos h]

lemma bamboo_to_panda_replay (myself : AlkaneId) (txid : Nat)
    (incoming : List AlkaneTransfer) (s : SwapState)
    (h : has_tx_hash s txid = true) :
    bamboo_to_panda myself txid incoming s = .error (.ReplayDetected, s) := by
  unfold bamboo_to_panda
  rw [if_pos h]

lemma bamboo_to_panda_insufficient (myself : AlkaneId) (txid : Nat)
    (t : AlkaneTransfer) (s : SwapState)
    (hrep : has_tx_hash s txid = false) (hid : t.id = myself)
    (hval : BAMBOO_PER_PANDA ≤ t.value)
    (hcnt : s.instances_count < t.value / BAMBOO_PER_PANDA) :
    bamboo_to_panda myself txid [t] s
      = .error (.InsufficientInventory, s) := by
  have hrep2 : ¬ has_tx_hash s txid = true := by
    rw [hrep]
    exact Bool.false_ne_true
  simp only [bamboo_to_panda, if_neg hrep2, if_pos hid,
    if_neg (show ¬ t.value < BAMBOO_PER_PANDA by omega), if_pos hcnt]

lemma bamboo_to_panda_ok (myself : AlkaneId) (txid : Nat) (t : AlkaneTransfer)
    (s : SwapState) (g : Nat → AlkaneId)
    (hrep : has_tx_hash s txid = false)
    (hid : t.id = myself)
    (hval : BAMBOO_PER_PANDA ≤ t.value)
    (hinv : t.value / BAMBOO_PER_PANDA ≤ s.instances_count)
    (hsup : t.value / BAMBOO_PER_PANDA * BAMBOO_PER_PANDA ≤ s.total_supply)
    (hslots : ∀ i, i < t.value / BAMBOO_PER_PANDA →
      getSlot s.slots (s.instances_count - i) = encodeId (g i))
    (hbnd : ∀ i, i < t.value / BAMBOO_PER_PANDA →
      (g i).block < 2 ^ 128 ∧ (g i).tx < 2 ^ 128) :
    ∃ s3 : SwapState,
      bamboo_to_panda myself txid [t] s
        = .ok (s3,
          ⟨(List.range (t.value / BAMBOO_PER_PANDA)).map (fun i => ⟨g i, 1⟩)
            ++ (if t.value % BAMBOO_PER_PANDA > 0
                then [⟨myself, t.value % BAMBOO_PER_PANDA⟩] else []), []⟩) ∧
      s3.total_supply
        = s.total_supply - t.value / BAMBOO_PER_PANDA * BAMBOO_PER_PANDA ∧
      s3.instances_count = s.instances_count - t.value / BAMBOO_PER_PANDA ∧
      s3.tx_hashes = txid :: s.tx_hashes ∧
      (∀ j, j ≤ s.instances_count - t.value / BAMBOO_PER_PANDA →
        getSlot s3.slots j = getSlot s.slots j) := by
  have hrep2 : ¬ has_tx_hash s txid = true := by
    rw [hrep]
    exact Bool.false_ne_true
  have hdec : decrease_total_supply (add_tx_hash s txid)
      (t.value / BAMBOO_PER_PANDA * BAMBOO_PER_PANDA)
      = .ok { add_tx_hash s txid with total_supply
          := (add_tx_hash s txid).total_supply
              - t.value / BAMBOO_PER_PANDA * BAMBOO_PER_PANDA } :=
    decrease_total_supply_ok _ _ hsup
  obtain ⟨s3, hpl, hc3, hsup3, htx3, hpres3⟩ :=
    popLoop_ok (t.value / BAMBOO_PER_PANDA)
      { add_tx_hash s txid with total_supply
          := (add_tx_hash s txid).total_supply
              - t.value / BAMBOO_PER_PANDA * BAMBOO_PER_PANDA }
      [] g hinv hslots hbnd
  refine ⟨s3, ?_, ?_, ?_, ?_, ?_⟩
  · simp only [bamboo_to_panda, if_neg hrep2, if_pos hid,
      if_neg (show ¬ t.value < BAMBOO_PER_PANDA by omega),
      if_neg (show ¬ s.instances_count < t.value / BAMBOO_PER_PANDA by omega),
      hdec, hpl, List.nil_append]
    by_cases hch : t.value % BAMBOO_PER_PANDA > 0
    · rw [if_pos hch, if_pos hch]
    · rw [if_neg hch, if_neg hch, List.append_nil]
  · rw [hsup3]
    rfl
  · rw [hc3]
    rfl
  · rw [htx3]
    rfl
  · intro j hj
    exact hpres3 j hj

lemma bamboo_to_panda_ok_inv {myself : AlkaneId} {txid : Nat}
    {incoming : List AlkaneTransfer} {s s3 : SwapState} {r : CallResponse}
    (h : bamboo_to_panda myself txid incoming s = .ok (s3, r)) :
    ∃ t : AlkaneTransfer, incoming = [t] ∧ t.id = myself ∧
      BAMBOO_PER_PANDA ≤ t.value ∧
      has_tx_hash s txid = false ∧
      t.value / BAMBOO_PER_PANDA ≤ s.instances_count ∧
      t.value / BAMBOO_PER_PANDA * BAMBOO_PER_PANDA ≤ s.total_supply ∧
      s3.total_supply
        = s.total_supply - t.value / BAMBOO_PER_PANDA * BAMBOO_PER_PANDA ∧
      s3.instances_count = s.instances_count - t.value / BAMBOO_PER_PANDA ∧
      s3.tx_hashes = txid :: s.tx_hashes ∧
      (∃ ps : List AlkaneTransfer,
        ps.length = t.value / BAMBOO_PER_PANDA ∧
        (∀ x ∈ ps, x.value = 1) ∧
        r.alkanes = ps ++ (if t.value % BAMBOO_PER_PANDA > 0
          then [⟨myself, t.value % BAMBOO_PER_PANDA⟩] else []) ∧
        r.data = []) := by
  have hb1 : (add_tx_hash s txid).total_supply = s.total_supply := rfl
  have hb2 : (add_tx_hash s txid).instances_count = s.instances_count := rfl
  have hb3 : (add_tx_hash s txid).tx_hashes = txid :: s.tx_hashes := rfl
  unfold bamboo_to_panda at h
  cases hhb : has_tx_hash s txid with
  | true =>
    rw [if_pos hhb] at h
    exact Except.noConfusion h
  | false =>
    rw [if_neg (by rw [hhb]; exact Bool.false_ne_true)] at h
    split at h
    next t =>
      by_cases hid : t.id = myself
      · rw [if_pos hid] at h
        by_cases hval : t.value < BAMBOO_PER_PANDA
        · rw [if_pos hval] at h
          exact Except.noConfusion h
        · rw [if_neg hval] at h
          by_cases hcnt : s.instances_count < t.value / BAMBOO_PER_PANDA
          · rw [if_pos hcnt] at h
            exact Except.noConfusion h
          · rw [if_neg hcnt] at h
            rcases hdec : decrease_total_supply (add_tx_hash s txid)
                (t.value / BAMBOO_PER_PANDA * BAMBOO_PER_PANDA) with e | s2
            · rw [hdec] at h
              exact Except.noConfusion h
            · simp only [hdec] at h
              obtain ⟨hd1, hd2, hd3, hd4, hd5⟩ :=
                decrease_total_supply_ok_inv hdec
              rcases hpl : popLoop s2
                  (t.value / BAMBOO_PER_PANDA) [] with es | q
              · rw [hpl] at h
                exact Except.noConfusion h
              · obtain ⟨s3x, pandas⟩ := q
                simp only [hpl] at h
                obtain ⟨hn, hc, hs, htx, ps, hout, hlen, hvals⟩ :=
                  popLoop_ok_inv _ _ _ _ _ hpl
                rw [List.nil_append] at hout
                subst hout
                by_cases hch : t.value % BAMBOO_PER_PANDA > 0
                · rw [if_pos hch] at h
                  injection h with h1
                  injection h1 with ha hb
                  subst ha
                  subst hb
                  refine ⟨t, rfl, hid, by omega, rfl, by omega, hd2, ?_, ?_,
                    ?_, pandas, hlen, hvals, ?_, rfl⟩
                  · rw [hs, hd1, hb1]
                  · rw [hc, hd3, hb2]
                  · rw [htx, hd4, hb3]
                  · rw [if_pos hch]
                · rw [if_neg hch] at h
                  injection h with h1
                  injection h1 with ha hb
                  subst ha
                  subst hb
                  refine ⟨t, rfl, hid, by omega, rfl, by omega, hd2, ?_, ?_,
                    ?_, pandas, hlen, hvals, ?_, rfl⟩
                  · rw [hs, hd1, hb1]
                  · rw [hc, hd3, hb2]
                  · rw [htx, hd4, hb3]
                  · rw [if_neg hch, List.append_nil]
      · rw [if_neg hid] at h
        exact Except.noConfusion h
    next x =>
      exact Except.noConfusion h

lemma mint_tokens_eq (s : SwapState) :
    mint_tokens s = .error (.NotImplemented, s) := rfl

lemma runSwap_replay (pandaIds : List Nat) (myself : AlkaneId) (op : SwapOp)
    (txid : Nat) (s : SwapState) (h : has_tx_hash s txid = true) :
    runSwap pandaIds myself op txid s = .error (.ReplayDetected, s) := by
  cases op with
  | forwardOp incoming => exact panda_to_bamboo_replay _ _ _ _ _ h
  | reverseOp incoming => exact bamboo_to_panda_replay _ _ _ _ h

lemma runSwap_marks {pandaIds : List Nat} {myself : AlkaneId} {op : SwapOp}
    {txid : Nat} {s s1 : SwapState} {r : CallResponse}
    (h : runSwap pandaIds myself op txid s = .ok (s1, r)) :
    s1.tx_hashes = txid :: s.tx_hashes := by
  cases op with
  | forwardOp incoming => exact (panda_to_bamboo_ok_inv h).2.2.2
  | reverseOp incoming =>
    obtain ⟨t, _, _, _, _, _, _, _, _, htx, _⟩ := bamboo_to_panda_ok_inv h
    exact htx

lemma has_tx_hash_marked {txid : Nat} {s1 s : SwapState}
    (h : s1.tx_hashes = txid :: s.tx_hashes) :
    has_tx_hash s1 txid = true := by
  rw [has_tx_hash, h]
  simp

lemma lookup_instance_corrupt (s : SwapState) (i : Nat)
    (h : (getSlot s.slots (i + 1)).length ≠ 32) :
    lookup_instance s i = .error .CorruptState := by
  unfold lookup_instance
  rw [if_neg h]

lemma stackRecords_zero (s : SwapState) (i : Nat) :
    stackRecords s i 0 = .ok [] := rfl

lemma stackRecords_succ (s : SwapState) (i n : Nat) :
    stackRecords s i (n + 1) =
      (match lookup_instance s i with
      | .error e => .error e
      | .ok instance_id =>
        match stackRecords s (i + 1) n with
        | .error e => .error e
        | .ok rest => .ok (encodeId instance_id :: rest)) := rfl

lemma stackRecords_ok (s : SwapState) :
    ∀ (n i : Nat) (ids : Nat → AlkaneId),
    (∀ k, k < n → getSlot s.slots (i + k + 1) = encodeId (ids k) ∧
      (ids k).block < 2 ^ 128 ∧ (ids k).tx < 2 ^ 128) →
    stackRecords s i n = .ok ((List.range n).map fun k => encodeId (ids k)) := by
  intro n
  induction n with
  | zero =>
    intro i ids _
    rw [stackRecords_zero]
    simp
  | succ m ih =>
    intro i ids hslots
    obtain ⟨h0, hb0, ht0⟩ := hslots 0 (by omega)
    have hlk : lookup_instance s i = .ok (ids 0) := by
      apply lookup_instance_of_slot s i (ids 0) hb0 ht0
      rw [show i + 0 + 1 = i + 1 by omega] at h0
      exact h0
    have hrec := ih (i + 1) (fun k => ids (k + 1))
      (fun k hk => by
        have hk1 := hslots (k + 1) (by omega)
        rw [show i + (k + 1) + 1 = i + 1 + k + 1 by omega] at hk1
        exact hk1)
    simp only [stackRecords_succ, hlk, hrec]
    rw [List.range_succ_eq_map, List.map_cons, List.map_map]
    simp [Function.comp]

lemma get_panda_stack_ok (incoming : List AlkaneTransfer) (s : SwapState)
    (ids : Nat → AlkaneId)
    (hslots : ∀ k, k < s.instances_count →
      getSlot s.slots (k + 1) = encodeId (ids k) ∧
      (ids k).block < 2 ^ 128 ∧ (ids k).tx < 2 ^ 128) :
    get_panda_stack incoming s
      = .ok ⟨incoming,
          ((List.range s.instances_count).map
            (fun k => toLeBytes16 (ids k).block ++ toLeBytes16 (ids k).tx)).foldr
            (fun r acc => r ++ acc) []⟩ := by
  have hrec := stackRecords_ok s s.instances_count 0 ids
    (fun k hk => by
      rw [show 0 + k + 1 = k + 1 by omega]
      exact hslots k hk)
  simp only [get_panda_stack, hrec]
  rfl

lemma is_valid_panda_of (pandaIds : List Nat) (id : AlkaneId)
    (hb : id.block = PANDA_BLOCK) (ht : id.tx ∈ pandaIds) :
    is_valid_panda pandaIds id = true := by
  simp [is_valid_panda, hb, ht]

/-- C10: for every state, the MintTokens operation fails with
    NotImplemented; the error carries the input state unchanged, so no
    mutation is performed. -/
theorem c10_mint_not_implemented (s : SwapState) :
    mint_tokens s = .error (.NotImplemented, s) := rfl

/-- C5: boundary failures are checked and non-mutating: increase at
    total_supply = u128 MAX with positive amount fails ArithmeticOverflow
    and produces no new state; pop_instance on an empty registry fails
    Underflow; a ReverseSwap requesting more units than held fails
    InsufficientInventory with the input state carried unchanged. -/
theorem c5_boundary_failures :
    (∀ (s : SwapState) (v : Nat), s.total_supply = U128_MAX → 0 < v →
      increase_total_supply s v = .error .ArithmeticOverflow) ∧
    (∀ s : SwapState, s.instances_count = 0 →
      pop_instance s = .error .Underflow) ∧
    (∀ (myself : AlkaneId) (txid : Nat) (t : AlkaneTransfer) (s : SwapState),
      has_tx_hash s txid = false → t.id = myself →
      BAMBOO_PER_PANDA ≤ t.value →
      s.instances_count < t.value / BAMBOO_PER_PANDA →
      bamboo_to_panda myself txid [t] s
        = .error (.InsufficientInventory, s)) := by
  refine ⟨?_, ?_, ?_⟩
  · intro s v hs hv
    apply increase_total_supply_err
    rw [hs]
    omega
  · intro s hs
    exact pop_instance_empty s hs
  · intro myself txid t s h1 h2 h3 h4
    exact bamboo_to_panda_insufficient myself txid t s h1 h2 h3 h4

/-- Witness for C5 at concrete inputs. -/
theorem c5_boundary_failures_witness :
    increase_total_supply ⟨U128_MAX, 0, [], []⟩ 1
      = .error .ArithmeticOverflow ∧
    pop_instance initState = .error .Underflow ∧
    bamboo_to_panda ⟨4, 1⟩ 5 [⟨⟨4, 1⟩, BAMBOO_PER_PANDA⟩] initState
      = .error (.InsufficientInventory, initState) :=
  ⟨c5_boundary_failures.1 ⟨U128_MAX, 0, [], []⟩ 1 rfl (by decide),
   c5_boundary_failures.2.1 initState rfl,
   c5_boundary_failures.2.2 ⟨4, 1⟩ 5 ⟨⟨4, 1⟩, BAMBOO_PER_PANDA⟩ initState rfl rfl
     (le_refl _) (by decide)⟩

/-- C6: the supply ledger increase fails exactly when the u128 checked
    addition wraps; it never compares against the cap constant, and there
    is a reachable state where increase succeeds and leaves total_supply
    strictly above BAMBOO_CAP. -/
theorem c6_increase_unchecked_cap :
    (∀ (s : SwapState) (v : Nat),
      increase_total_supply s v = .error .ArithmeticOverflow ↔
        U128_MAX < s.total_supply + v) ∧
    (∀ (pandaIds : List Nat) (p : Nat) (myself : AlkaneId), p ∈ pandaIds →
      ∃ s s1 : SwapState,
        Reaches pandaIds myself initState s ∧
        increase_total_supply s BAMBOO_PER_PANDA = .ok s1 ∧
        BAMBOO_CAP < s1.total_supply) := by
  constructor
  · intro s v
    constructor
    · intro h
      by_contra hn
      rw [increase_total_supply_ok s v (by omega)] at h
      exact Except.noConfusion h
    · intro h
      exact increase_total_supply_err s v h
  · intro pandaIds p myself hp
    obtain ⟨s3, hok, hsup, hcnt, htx, _, _⟩ :=
      panda_to_bamboo_ok pandaIds myself 0
        (List.replicate 10000 ⟨⟨PANDA_BLOCK, p⟩, 1⟩) initState
        rfl
        (by
          intro hnil
          have hlen := congrArg List.length hnil
          simp only [List.length_replicate, List.length_nil] at hlen
          exact absurd hlen (by norm_num))
        (fun t ht => by
          rw [List.eq_of_mem_replicate ht]
          exact is_valid_panda_of pandaIds ⟨PANDA_BLOCK, p⟩ rfl hp)
        (by
          simp only [List.length_replicate]
          norm_num [initState, U128_MAX])
        (by
          simp only [List.length_replicate]
          norm_num [initState, U128_MAX, BAMBOO_PER_PANDA])
    have hsup3 : s3.total_supply = 10000 * BAMBOO_PER_PANDA := by
      rw [hsup]
      simp only [List.length_replicate]
      norm_num [initState]
    refine ⟨s3, { s3 with total_supply
        := s3.total_supply + BAMBOO_PER_PANDA }, ?_, ?_, ?_⟩
    · exact Reaches.forwardStep initState s3 0
        (List.replicate 10000 ⟨⟨PANDA_BLOCK, p⟩, 1⟩)
        ⟨[⟨myself, (List.replicate 10000
            (⟨⟨PANDA_BLOCK, p⟩, 1⟩ : AlkaneTransfer)).length
          * BAMBOO_PER_PANDA⟩], []⟩
        Reaches.refl hok
    · apply increase_total_supply_ok
      rw [hsup3]
      norm_num [BAMBOO_PER_PANDA, U128_MAX]
    · have hproj : ({ s3 with total_supply
          := s3.total_supply + BAMBOO_PER_PANDA } : SwapState).total_supply
          = s3.total_supply + BAMBOO_PER_PANDA := rfl
      rw [hproj, hsup3]
      norm_num [BAMBOO_CAP, PANDA_SUPPLY, BAMBOO_PER_PANDA]

/-- Witness for C6 at concrete inputs. -/
theorem c6_increase_unchecked_cap_witness :
    (increase_total_supply ⟨U128_MAX, 0, [], []⟩ 1
        = .error .ArithmeticOverflow ↔
      U128_MAX < (⟨U128_MAX, 0, [], []⟩ : SwapState).total_supply + 1) ∧
    (∃ s s1 : SwapState,
      Reaches [614] ⟨4, 1⟩ initState s ∧
      increase_total_supply s BAMBOO_PER_PANDA = .ok s1 ∧
      BAMBOO_CAP < s1.total_supply) :=
  ⟨c6_increase_unchecked_cap.1 ⟨U128_MAX, 0, [], []⟩ 1,
   c6_increase_unchecked_cap.2 [614] 614 ⟨4, 1⟩ (by decide)⟩

/-- C3 (amended): after a successful settlement with some transaction
    identifier, any second swap operation with the same identifier fails
    ReplayDetected with the state carried unchanged, while MintTokens
    fails NotImplemented (also without mutation) rather than
    ReplayDetected. -/
theorem c3_replay_corrected :
    ∀ (pandaIds : List Nat) (myself : AlkaneId) (op1 : SwapOp) (txid : Nat)
      (s s1 : SwapState) (r1 : CallResponse),
    runSwap pandaIds myself op1 txid s = .ok (s1, r1) →
    (∀ op2 : SwapOp, runSwap pandaIds myself op2 txid s1
        = .error (.ReplayDetected, s1)) ∧
    mint_tokens s1 = .error (.NotImplemented, s1) := by
  intro pandaIds myself op1 txid s s1 r1 h
  have hm := has_tx_hash_marked (runSwap_marks h)
  exact ⟨fun op2 => runSwap_replay pandaIds myself op2 txid s1 hm, rfl⟩

/-- Counterexample for C3 as stated: after a successful ForwardSwap with
    transaction identifier 7, a second call invoking MintTokens fails with
    NotImplemented, not ReplayDetected. -/
theorem c3_counterexample :
    panda_to_bamboo [614] ⟨4, 1⟩ 7 [⟨⟨2, 614⟩, 1⟩] initState
      = .ok (⟨BAMBOO_PER_PANDA, 1, [(1, encodeId ⟨2, 614⟩)], [7]⟩,
          ⟨[⟨⟨4, 1⟩, BAMBOO_PER_PANDA⟩], []⟩) ∧
    mint_tokens ⟨BAMBOO_PER_PANDA, 1, [(1, encodeId ⟨2, 614⟩)], [7]⟩
      = .error (.NotImplemented,
          ⟨BAMBOO_PER_PANDA, 1, [(1, encodeId ⟨2, 614⟩)], [7]⟩) ∧
    SwapErr.NotImplemented ≠ SwapErr.ReplayDetected :=
  ⟨by rfl, rfl, by decide⟩

/-- Witness for C3 at concrete inputs. -/
theorem c3_replay_corrected_witness :
    runSwap [614] ⟨4, 1⟩ (.forwardOp [⟨⟨2, 614⟩, 1⟩]) 7
        ⟨BAMBOO_PER_PANDA, 1, [(1, encodeId ⟨2, 614⟩)], [7]⟩
      = .error (.ReplayDetected,
          ⟨BAMBOO_PER_PANDA, 1, [(1, encodeId ⟨2, 614⟩)], [7]⟩) ∧
    mint_tokens ⟨BAMBOO_PER_PANDA, 1, [(1, encodeId ⟨2, 614⟩)], [7]⟩
      = .error (.NotImplemented,
          ⟨BAMBOO_PER_PANDA, 1, [(1, encodeId ⟨2, 614⟩)], [7]⟩) := by
  obtain ⟨hall, hmint⟩ := c3_replay_corrected [614] ⟨4, 1⟩
    (.forwardOp [⟨⟨2, 614⟩, 1⟩]) 7 initState
    ⟨BAMBOO_PER_PANDA, 1, [(1, encodeId ⟨2, 614⟩)], [7]⟩
    ⟨[⟨⟨4, 1⟩, BAMBOO_PER_PANDA⟩], []⟩ (by rfl)
  exact ⟨hall (.forwardOp [⟨⟨2, 614⟩, 1⟩]), hmint⟩

/-- C7: in every state reachable from the initial state through
    successful settlements, the issued credit supply exactly backs the
    custodied collectibles: total_supply = instances_count * rate. -/
theorem c7_supply_backs_inventory (pandaIds : List Nat) (myself : AlkaneId)
    (s : SwapState) (h : Reaches pandaIds myself initState s) :
    s.total_supply = s.instances_count * BAMBOO_PER_PANDA := by
  induction h with
  | refl => rfl
  | forwardStep t u txid incoming r _ hok ih =>
    obtain ⟨_, hsup, hcnt, _⟩ := panda_to_bamboo_ok_inv hok
    rw [hsup, hcnt, ih, add_mul]
  | reverseStep t u txid incoming r _ hok ih =>
    obtain ⟨tr, _, _, _, _, hinv, hused, hsup, hcnt, _, _⟩ :=
      bamboo_to_panda_ok_inv hok
    rw [hsup, hcnt, ih, Nat.sub_mul]

/-- Witness for C7 at a concrete reachable state. -/
theorem c7_supply_backs_inventory_witness :
    (⟨BAMBOO_PER_PANDA, 1, [(1, encodeId ⟨2, 614⟩)], [7]⟩
        : SwapState).total_supply
      = (⟨BAMBOO_PER_PANDA, 1, [(1, encodeId ⟨2, 614⟩)], [7]⟩
        : SwapState).instances_count * BAMBOO_PER_PANDA :=
  c7_supply_backs_inventory [614] ⟨4, 1⟩
    ⟨BAMBOO_PER_PANDA, 1, [(1, encodeId ⟨2, 614⟩)], [7]⟩
    (Reaches.forwardStep initState
      ⟨BAMBOO_PER_PANDA, 1, [(1, encodeId ⟨2, 614⟩)], [7]⟩
      7 [⟨⟨2, 614⟩, 1⟩] ⟨[⟨⟨4, 1⟩, BAMBOO_PER_PANDA⟩], []⟩
      Reaches.refl (by rfl))

/-- C1 (amended): for every non-empty parcel of member collectibles with
    an unmarked transaction identifier, and provided neither the registry
    count nor the supply addition overflows u128, ForwardSwap succeeds,
    emits exactly one credit transfer of k * rate, increases total_supply
    by that amount, and appends the k identifiers in parcel order. -/
theorem c1_forward_correct (pandaIds : List Nat) (myself : AlkaneId)
    (txid : Nat) (incoming : List AlkaneTransfer) (s : SwapState)
    (hrep : has_tx_hash s txid = false)
    (hne : incoming ≠ [])
    (hvalid : ∀ t ∈ incoming, is_valid_panda pandaIds t.id = true)
    (hcnt : s.instances_count + incoming.length ≤ U128_MAX)
    (hsup : s.total_supply + incoming.length * BAMBOO_PER_PANDA ≤ U128_MAX) :
    ∃ s3 : SwapState,
      panda_to_bamboo pandaIds myself txid incoming s
        = .ok (s3, ⟨[⟨myself, incoming.length * BAMBOO_PER_PANDA⟩], []⟩) ∧
      s3.total_supply = s.total_supply + incoming.length * BAMBOO_PER_PANDA ∧
      s3.instances_count = s.instances_count + incoming.length ∧
      s3.tx_hashes = txid :: s.tx_hashes ∧
      (∀ j : Nat, (∀ i : Nat, i < incoming.length →
          j ≠ s.instances_count + i + 1) →
        getSlot s3.slots j = getSlot s.slots j) ∧
      (∀ i : Nat, (h : i < incoming.length) →
        getSlot s3.slots (s.instances_count + i + 1)
          = encodeId (incoming.get ⟨i, h⟩).id) :=
  panda_to_bamboo_ok pandaIds myself txid incoming s hrep hne hvalid hcnt hsup

/-- Counterexample for C1 as stated: from the state whose total_supply is
    u128 MAX, a single-member valid parcel with a fresh transaction
    identifier makes ForwardSwap fail ArithmeticOverflow instead of
    succeeding. -/
theorem c1_counterexample :
    (∀ t ∈ [(⟨⟨2, 614⟩, 1⟩ : AlkaneTransfer)],
      is_valid_panda [614] t.id = true) ∧
    has_tx_hash ⟨U128_MAX, 0, [], []⟩ 7 = false ∧
    panda_to_bamboo [614] ⟨4, 1⟩ 7 [⟨⟨2, 614⟩, 1⟩] ⟨U128_MAX, 0, [], []⟩
      = .error (.ArithmeticOverflow,
          ⟨U128_MAX, 1, [(1, encodeId ⟨2, 614⟩)], [7]⟩) :=
  ⟨by decide, rfl, by rfl⟩

/-- Witness for C1 at concrete inputs. -/
theorem c1_forward_correct_witness :
    ∃ s3 : SwapState,
      panda_to_bamboo [614, 615] ⟨4, 1⟩ 7
          [⟨⟨2, 614⟩, 1⟩, ⟨⟨2, 615⟩, 1⟩] initState
        = .ok (s3, ⟨[⟨⟨4, 1⟩, 2 * BAMBOO_PER_PANDA⟩], []⟩) ∧
      s3.instances_count = 2 := by
  obtain ⟨s3, h1, _, h3, _, _, _⟩ :=
    c1_forward_correct [614, 615] ⟨4, 1⟩ 7
      [⟨⟨2, 614⟩, 1⟩, ⟨⟨2, 615⟩, 1⟩] initState
      rfl (by decide) (by decide) (by decide) (by decide)
  exact ⟨s3, h1, h3⟩

lemma forwardLoop_id_congr (pandaIds : List Nat) (rate : Nat) :
    ∀ (ts1 ts2 : List AlkaneTransfer) (s : SwapState) (total : Nat),
    ts1.map (fun t => t.id) = ts2.map (fun t => t.id) →
    forwardLoop pandaIds rate s ts1 total
      = forwardLoop pandaIds rate s ts2 total := by
  intro ts1
  induction ts1 with
  | nil =>
    intro ts2 s total h
    cases ts2 with
    | nil => rfl
    | cons b l => simp at h
  | cons a l1 ih =>
    intro ts2 s total h
    cases ts2 with
    | nil => simp at h
    | cons b l2 =>
      simp only [List.map_cons, List.cons.injEq] at h
      obtain ⟨hab, hrest⟩ := h
      rw [forwardLoop_cons, forwardLoop_cons, hab]
      by_cases hv : is_valid_panda pandaIds b.id
      · rw [if_pos hv, if_pos hv]
        rcases hai : add_instance s b.id with e | p
        · rfl
        · obtain ⟨s1, nc⟩ := p
          rcases hct : checked_add total rate with _ | nt
          · rfl
          · exact ih l2 s1 nt hrest
      · rw [if_neg hv, if_neg hv]

/-- C8 (amended): ForwardSwap ignores the amount field of every incoming
    transfer entirely: its result depends only on the AssetId list.  And
    for a parcel of k member AssetIds with unmarked transaction identifier
    and no u128 overflow, the credited total is exactly k * rate and each
    AssetId is appended once, whatever the amounts. -/
theorem c8_amount_ignored :
    (∀ (pandaIds : List Nat) (myself : AlkaneId) (txid : Nat)
       (ts1 ts2 : List AlkaneTransfer) (s : SwapState),
      ts1.map (fun t => t.id) = ts2.map (fun t => t.id) →
      panda_to_bamboo pandaIds myself txid ts1 s
        = panda_to_bamboo pandaIds myself txid ts2 s) ∧
    (∀ (pandaIds : List Nat) (myself : AlkaneId) (txid : Nat)
       (ts : List AlkaneTransfer) (s : SwapState),
      has_tx_hash s txid = false → ts ≠ [] →
      (∀ t ∈ ts, is_valid_panda pandaIds t.id = true) →
      s.instances_count + ts.length ≤ U128_MAX →
      s.total_supply + ts.length * BAMBOO_PER_PANDA ≤ U128_MAX →
      ∃ s3 : SwapState,
        panda_to_bamboo pandaIds myself txid ts s
          = .ok (s3, ⟨[⟨myself, ts.length * BAMBOO_PER_PANDA⟩], []⟩) ∧
        s3.instances_count = s.instances_count + ts.length ∧
        (∀ i : Nat, (h : i < ts.length) →
          getSlot s3.slots (s.instances_count + i + 1)
            = encodeId (ts.get ⟨i, h⟩).id)) := by
  constructor
  · intro pandaIds myself txid ts1 ts2 s h
    unfold panda_to_bamboo
    rw [forwardLoop_id_congr pandaIds BAMBOO_PER_PANDA ts1 ts2
      (add_tx_hash s txid) 0 h]
    have hemp : ts1.isEmpty = ts2.isEmpty := by
      cases ts1 <;> cases ts2 <;> simp_all
    rw [hemp]
  · intro pandaIds myself txid ts s h1 h2 h3 h4 h5
    obtain ⟨s3, hok, _, hcnt, _, _, hidx⟩ :=
      panda_to_bamboo_ok pandaIds myself txid ts s h1 h2 h3 h4 h5
    exact ⟨s3, hok, hcnt, hidx⟩

/-- Counterexample for C8 as stated: a parcel holding one valid member id
    with amount 0, at the state whose total_supply is u128 MAX, makes
    ForwardSwap fail ArithmeticOverflow, so no credit of k * rate is
    issued there. -/
theorem c8_counterexample :
    (∀ t ∈ [(⟨⟨2, 614⟩, 0⟩ : AlkaneTransfer)],
      is_valid_panda [614] t.id = true) ∧
    panda_to_bamboo [614] ⟨4, 1⟩ 9 [⟨⟨2, 614⟩, 0⟩] ⟨U128_MAX, 0, [], []⟩
      = .error (.ArithmeticOverflow,
          ⟨U128_MAX, 1, [(1, encodeId ⟨2, 614⟩)], [9]⟩) :=
  ⟨by decide, by rfl⟩

/-- Witness for C8 at concrete inputs: transfers with amounts 0 and 7 give
    the same result as amounts 1 and 1, and credit exactly 2 * rate. -/
theorem c8_amount_ignored_witness :
    panda_to_bamboo [614, 615] ⟨4, 1⟩ 7
        [⟨⟨2, 614⟩, 0⟩, ⟨⟨2, 615⟩, 7⟩] initState
      = panda_to_bamboo [614, 615] ⟨4, 1⟩ 7
        [⟨⟨2, 614⟩, 1⟩, ⟨⟨2, 615⟩, 1⟩] initState ∧
    (∃ s3 : SwapState,
      panda_to_bamboo [614, 615] ⟨4, 1⟩ 7
          [⟨⟨2, 614⟩, 0⟩, ⟨⟨2, 615⟩, 7⟩] initState
        = .ok (s3, ⟨[⟨⟨4, 1⟩, 2 * BAMBOO_PER_PANDA⟩], []⟩) ∧
      s3.instances_count = 2) := by
  constructor
  · exact c8_amount_ignored.1 [614, 615] ⟨4, 1⟩ 7
      [⟨⟨2, 614⟩, 0⟩, ⟨⟨2, 615⟩, 7⟩] [⟨⟨2, 614⟩, 1⟩, ⟨⟨2, 615⟩, 1⟩]
      initState (by decide)
  · obtain ⟨s3, h1, h2, _⟩ :=
      c8_amount_ignored.2 [614, 615] ⟨4, 1⟩ 7
        [⟨⟨2, 614⟩, 0⟩, ⟨⟨2, 615⟩, 7⟩] initState
        rfl (by decide) (by decide) (by decide) (by decide)
    exact ⟨s3, h1, h2⟩

/-- C4: every successful ReverseSwap consumed a single incoming credit
    transfer of amount at least the rate; with units = floor(amount/rate)
    it emits the units popped collectibles first (amount 1 each), then one
    change transfer of amount % rate exactly when that remainder is
    positive, and decreases total_supply by exactly units * rate. -/
theorem c4_reverse_accounting :
    ∀ (myself : AlkaneId) (txid : Nat) (incoming : List AlkaneTransfer)
      (s s3 : SwapState) (r : CallResponse),
    bamboo_to_panda myself txid incoming s = .ok (s3, r) →
    ∃ t : AlkaneTransfer, incoming = [t] ∧
      BAMBOO_PER_PANDA ≤ t.value ∧
      t.value / BAMBOO_PER_PANDA * BAMBOO_PER_PANDA ≤ s.total_supply ∧
      s3.total_supply
        = s.total_supply - t.value / BAMBOO_PER_PANDA * BAMBOO_PER_PANDA ∧
      s3.instances_count
        = s.instances_count - t.value / BAMBOO_PER_PANDA ∧
      ∃ ps : List AlkaneTransfer,
        ps.length = t.value / BAMBOO_PER_PANDA ∧
        (∀ x ∈ ps, x.value = 1) ∧
        r.alkanes = ps ++ (if t.value % BAMBOO_PER_PANDA > 0
          then [⟨myself, t.value % BAMBOO_PER_PANDA⟩] else []) := by
  intro myself txid incoming s s3 r h
  obtain ⟨t, h1, h2, h3, h4, h5, h6, h7, h8, h9, ps, hlen, hvals, halk, hdata⟩ :=
    bamboo_to_panda_ok_inv h
  exact ⟨t, h1, h3, h6, h7, h8, ps, hlen, hvals, halk⟩

/-- Witness for C4 at a concrete successful ReverseSwap with change. -/
theorem c4_reverse_accounting_witness :
    ∃ t : AlkaneTransfer,
      [(⟨⟨4, 1⟩, BAMBOO_PER_PANDA + 5⟩ : AlkaneTransfer)] = [t] ∧
      BAMBOO_PER_PANDA ≤ t.value ∧
      t.value / BAMBOO_PER_PANDA * BAMBOO_PER_PANDA
        ≤ (⟨BAMBOO_PER_PANDA, 1, [(1, encodeId ⟨2, 614⟩)], []⟩
            : SwapState).total_supply ∧
      (⟨0, 0, [(1, []), (1, encodeId ⟨2, 614⟩)], [9]⟩
          : SwapState).total_supply
        = (⟨BAMBOO_PER_PANDA, 1, [(1, encodeId ⟨2, 614⟩)], []⟩
            : SwapState).total_supply
          - t.value / BAMBOO_PER_PANDA * BAMBOO_PER_PANDA ∧
      (⟨0, 0, [(1, []), (1, encodeId ⟨2, 614⟩)], [9]⟩
          : SwapState).instances_count
        = (⟨BAMBOO_PER_PANDA, 1, [(1, encodeId ⟨2, 614⟩)], []⟩
            : SwapState).instances_count
          - t.value / BAMBOO_PER_PANDA ∧
      ∃ ps : List AlkaneTransfer,
        ps.length = t.value / BAMBOO_PER_PANDA ∧
        (∀ x ∈ ps, x.value = 1) ∧
        (⟨[⟨⟨2, 614⟩, 1⟩, ⟨⟨4, 1⟩, 5⟩], []⟩ : CallResponse).alkanes
          = ps ++ (if t.value % BAMBOO_PER_PANDA > 0
            then [⟨⟨4, 1⟩, t.value % BAMBOO_PER_PANDA⟩] else []) :=
  c4_reverse_accounting ⟨4, 1⟩ 9 [⟨⟨4, 1⟩, BAMBOO_PER_PANDA + 5⟩]
    ⟨BAMBOO_PER_PANDA, 1, [(1, encodeId ⟨2, 614⟩)], []⟩
    ⟨0, 0, [(1, []), (1, encodeId ⟨2, 614⟩)], [9]⟩
    ⟨[⟨⟨2, 614⟩, 1⟩, ⟨⟨4, 1⟩, 5⟩], []⟩ (by rfl)

/-- C9: for a registry whose count slots store encoded collectible
    identifiers, GetPandaStack returns exactly the concatenation, in slot
    order 1..count, of the 32 byte records formed by the 16 byte
    little-endian block value followed by the 16 byte little-endian tx
    value; and looking up any stored slot whose byte length is not exactly
    32 fails with CorruptState. -/
theorem c9_stack_encoding :
    (∀ (incoming : List AlkaneTransfer) (s : SwapState)
       (ids : Nat → AlkaneId),
      (∀ k, k < s.instances_count →
        getSlot s.slots (k + 1) = encodeId (ids k) ∧
        (ids k).block < 2 ^ 128 ∧ (ids k).tx < 2 ^ 128) →
      get_panda_stack incoming s
        = .ok ⟨incoming,
            ((List.range s.instances_count).map
              (fun k => toLeBytes16 (ids k).block
                ++ toLeBytes16 (ids k).tx)).foldr
              (fun r acc => r ++ acc) []⟩) ∧
    (∀ instance_id : AlkaneId, (encodeId instance_id).length = 32) ∧
    (∀ (s : SwapState) (i : Nat),
      (getSlot s.slots (i + 1)).length ≠ 32 →
      lookup_instance s i = .error .CorruptState) :=
  ⟨get_panda_stack_ok, encodeId_length, lookup_instance_corrupt⟩

/-- Witness for C9 at a concrete two-collectible registry and at an empty
    slot. -/
theorem c9_stack_encoding_witness :
    get_panda_stack []
        ⟨0, 2, [(2, encodeId ⟨2, 102⟩), (1, encodeId ⟨2, 101⟩)], []⟩
      = .ok ⟨[],
          ((List.range
            (⟨0, 2, [(2, encodeId ⟨2, 102⟩), (1, encodeId ⟨2, 101⟩)], []⟩
              : SwapState).instances_count).map
            (fun k => toLeBytes16 ((fun k => if k = 0
                then (⟨2, 101⟩ : AlkaneId) else ⟨2, 102⟩) k).block
              ++ toLeBytes16 ((fun k => if k = 0
                then (⟨2, 101⟩ : AlkaneId) else ⟨2, 102⟩) k).tx)).foldr
            (fun r acc => r ++ acc) []⟩ ∧
    lookup_instance initState 0 = .error .CorruptState :=
  ⟨c9_stack_encoding.1 []
      ⟨0, 2, [(2, encodeId ⟨2, 102⟩), (1, encodeId ⟨2, 101⟩)], []⟩
      (fun k => if k = 0 then ⟨2, 101⟩ else ⟨2, 102⟩) (by decide),
   c9_stack_encoding.2.2 initState 0 (by decide)⟩

/-- C2: the registry is strict LIFO: popping immediately after a
    successful add returns exactly the added identifier and restores the
    previous count; and in the concrete scenario, after depositing
    collectibles A, B, C in that order through a ForwardSwap, a
    ReverseSwap redeeming 2 * rate credits returns C then B and leaves the
    registry holding A with count 1. -/
theorem c2_lifo_pop :
    (∀ (s : SwapState) (instance_id : AlkaneId) (out : SwapState × Nat),
      instance_id.block < 2 ^ 128 → instance_id.tx < 2 ^ 128 →
      add_instance s instance_id = .ok out →
      ∃ s2 : SwapState, pop_instance out.1 = .ok (s2, instance_id) ∧
        s2.instances_count = s.instances_count) ∧
    (∀ (pandaIds : List Nat) (A B C myself : AlkaneId) (txid1 txid2 : Nat),
      A.block = PANDA_BLOCK → A.tx ∈ pandaIds → A.tx < 2 ^ 128 →
      B.block = PANDA_BLOCK → B.tx ∈ pandaIds → B.tx < 2 ^ 128 →
      C.block = PANDA_BLOCK → C.tx ∈ pandaIds → C.tx < 2 ^ 128 →
      txid2 ≠ txid1 →
      ∃ (s1 s2 : SwapState) (r1 r2 : CallResponse),
        panda_to_bamboo pandaIds myself txid1
          [⟨A, 1⟩, ⟨B, 1⟩, ⟨C, 1⟩] initState = .ok (s1, r1) ∧
        bamboo_to_panda myself txid2
          [⟨myself, 2 * BAMBOO_PER_PANDA⟩] s1 = .ok (s2, r2) ∧
        r2.alkanes = [⟨C, 1⟩, ⟨B, 1⟩] ∧
        s2.instances_count = 1 ∧
        lookup_instance s2 0 = .ok A) := by
  constructor
  · intro s instance_id out hb ht h
    have h2 : add_instance s instance_id = .ok (out.1, out.2) := h
    obtain ⟨hnc, hc1, hc2, hc3, hslots, hle⟩ := add_instance_ok_inv h2
    have hpop := pop_instance_ok out.1 instance_id (by rw [hc1]; omega) hb ht
      (by
        rw [hslots, hc1]
        exact getSlot_set_same _ _ _)
    refine ⟨_, hpop, ?_⟩
    have hp : ({ out.1 with
        slots := setSlot out.1.slots out.1.instances_count [],
        instances_count := out.1.instances_count - 1 }
          : SwapState).instances_count
        = out.1.instances_count - 1 := rfl
    rw [hp, hc1]
    omega
  · intro pandaIds A B C myself txid1 txid2 hAb hAm hAt hBb hBm hBt hCb hCm hCt hne
    obtain ⟨s1, hf, hsup1, hcnt1, htx1, hpres1, hidx1⟩ :=
      panda_to_bamboo_ok pandaIds myself txid1
        [⟨A, 1⟩, ⟨B, 1⟩, ⟨C, 1⟩] initState
        rfl (by simp)
        (fun t htm => by
          rcases List.mem_cons.mp htm with h1 | htm1
          · rw [h1]
            exact is_valid_panda_of pandaIds A hAb hAm
          · rcases List.mem_cons.mp htm1 with h2 | htm2
            · rw [h2]
              exact is_valid_panda_of pandaIds B hBb hBm
            · rcases List.mem_cons.mp htm2 with h3 | htm3
              · rw [h3]
                exact is_valid_panda_of pandaIds C hCb hCm
              · exact absurd htm3 (List.not_mem_nil t))
        (by norm_num [initState, U128_MAX])
        (by norm_num [initState, U128_MAX, BAMBOO_PER_PANDA])
    have hc1 : s1.instances_count = 3 := by
      rw [hcnt1]
      rfl
    have hs1 : s1.total_supply = 3 * BAMBOO_PER_PANDA := by
      rw [hsup1]
      simp [initState]
    have htxh : has_tx_hash s1 txid2 = false := by
      rw [has_tx_hash, htx1]
      simp [initState, hne]
    have hvalue : (⟨myself, 2 * BAMBOO_PER_PANDA⟩ : AlkaneTransfer).value
        = 2 * BAMBOO_PER_PANDA := rfl
    have hunits : 2 * BAMBOO_PER_PANDA / BAMBOO_PER_PANDA = 2 :=
      Nat.mul_div_cancel 2 (by norm_num [BAMBOO_PER_PANDA])
    have hslot3 : getSlot s1.slots 3 = encodeId C := by
      have hx := hidx1 2 (by norm_num)
      exact hx
    have hslot2 : getSlot s1.slots 2 = encodeId B := by
      have hx := hidx1 1 (by norm_num)
      exact hx
    have hslot1 : getSlot s1.slots 1 = encodeId A := by
      have hx := hidx1 0 (by norm_num)
      exact hx
    obtain ⟨s3, hrev, hsup3, hcnt3, htx3, hpres3⟩ :=
      bamboo_to_panda_ok myself txid2 ⟨myself, 2 * BAMBOO_PER_PANDA⟩ s1
        (fun i => if i = 0 then C else B)
        htxh rfl
        (by rw [hvalue]; omega)
        (by
          rw [hvalue, hunits, hc1]
          omega)
        (by
          rw [hvalue, hunits, hs1]
          omega)
        (by
          intro i hi
          rw [hvalue, hunits] at hi
          rw [hc1]
          rcases i with _ | i1
          · exact hslot3
          · have hi0 : i1 = 0 := by omega
            subst hi0
            exact hslot2)
        (by
          intro i hi
          rw [hvalue, hunits] at hi
          rcases i with _ | i1
          · constructor
            · show C.block < 2 ^ 128
              rw [hCb]
              norm_num [PANDA_BLOCK]
            · show C.tx < 2 ^ 128
              exact hCt
          · have hi0 : i1 = 0 := by omega
            subst hi0
            constructor
            · show B.block < 2 ^ 128
              rw [hBb]
              norm_num [PANDA_BLOCK]
            · show B.tx < 2 ^ 128
              exact hBt)
    refine ⟨s1, s3, _, _, hf, hrev, ?_, ?_, ?_⟩
    · show ((List.range ((⟨myself, 2 * BAMBOO_PER_PANDA⟩
          : AlkaneTransfer).value / BAMBOO_PER_PANDA)).map
          (fun i => (⟨if i = 0 then C else B, 1⟩ : AlkaneTransfer))
        ++ (if (⟨myself, 2 * BAMBOO_PER_PANDA⟩
              : AlkaneTransfer).value % BAMBOO_PER_PANDA > 0
            then [⟨myself, (⟨myself, 2 * BAMBOO_PER_PANDA⟩
              : AlkaneTransfer).value % BAMBOO_PER_PANDA⟩] else []))
        = [⟨C, 1⟩, ⟨B, 1⟩]
      rw [hvalue, hunits, Nat.mul_mod_left]
      simp [List.range_succ]
    · rw [hcnt3, hvalue, hunits, hc1]
    · apply lookup_instance_of_slot s3 0 A
        (by rw [hAb]; norm_num [PANDA_BLOCK]) hAt
      have hj := hpres3 1 (by rw [hvalue, hunits, hc1])
      rw [show (0 : Nat) + 1 = 1 by rfl, hj]
      exact hslot1

/-- Witness for C2: popping after adding collectible 2:614 returns it, and
    the concrete A, B, C scenario with A = 2:101, B = 2:102, C = 2:103. -/
theorem c2_lifo_pop_witness :
    (∃ s2 : SwapState,
      pop_instance (⟨0, 1, [(1, encodeId ⟨2, 614⟩)], []⟩ : SwapState)
        = .ok (s2, ⟨2, 614⟩) ∧
      s2.instances_count = initState.instances_count) ∧
    (∃ (s1 s2 : SwapState) (r1 r2 : CallResponse),
      panda_to_bamboo [101, 102, 103] ⟨4, 1⟩ 7
        [⟨⟨2, 101⟩, 1⟩, ⟨⟨2, 102⟩, 1⟩, ⟨⟨2, 103⟩, 1⟩] initState
        = .ok (s1, r1) ∧
      bamboo_to_panda ⟨4, 1⟩ 9 [⟨⟨4, 1⟩, 2 * BAMBOO_PER_PANDA⟩] s1
        = .ok (s2, r2) ∧
      r2.alkanes = [⟨⟨2, 103⟩, 1⟩, ⟨⟨2, 102⟩, 1⟩] ∧
      s2.instances_count = 1 ∧
      lookup_instance s2 0 = .ok ⟨2, 101⟩) :=
  ⟨c2_lifo_pop.1 initState ⟨2, 614⟩ (⟨0, 1, [(1, encodeId ⟨2, 614⟩)], []⟩, 1)
      (by decide) (by decide) (by rfl),
   c2_lifo_pop.2 [101, 102, 103] ⟨2, 101⟩ ⟨2, 102⟩ ⟨2, 103⟩ ⟨4, 1⟩ 7 9
      rfl (by decide) (by decide) rfl (by decide) (by decide) rfl (by decide)
      (by decide) (by decide)⟩
